import Mathlib

/-
Verification of the "Circular Sequence Mixer" of day_20.rs (Advent of Code 2022, day 20).

The Rust code keeps all ring elements in a flat `Vec<MixerNode>`; elements
reference each other by index through the `prev` and `next` fields.  We model
the vector as a `List MixerNode` and the fallible operations (Rust panics:
failed `assert!`, remainder by zero) as `Option`-returning functions where
`none` models a panic.  Values are modelled as `Int`: the source uses `i64`,
and no operation considered here comes near the 64-bit range, so wrap-around
is irrelevant.

Vector indexing `self.nodes[j]` is modelled with a defaulting read `getN`
(and `List.set`, which ignores out-of-range writes): a Rust out-of-bounds
index would panic, but every index the mixer stores or produces is below
`nodes.len()`, so the defaulting never fires on the executions studied here.
-/

set_option autoImplicit false

namespace Day20

/-- MixerNode mirrors the Rust struct: original index `i`, ring links
`prev` and `next` (indices into the backing vector), and the payload
`value`. -/
structure MixerNode where
  i : Nat
  prev : Nat
  next : Nat
  value : Int
  deriving DecidableEq, Repr, Inhabited

/-- MixerNode::new from the source: initial ring links follow input order,
`prev = (i + total - 1) % total`, `next = (i + 1) % total`. -/
def MixerNode.new (i : Nat) (v : Int) (total : Nat) : MixerNode :=
  { i := i
    prev := (i + total - 1) % total
    next := (i + 1) % total
    value := v }

/-- Mixer mirrors the Rust struct: the node store plus the cached index
`zero` of the anchor element. -/
structure Mixer where
  nodes : List MixerNode
  zero : Nat
  deriving DecidableEq, Repr

/-- Defaulting read, modelling `self.nodes[j]` (all reachable reads are in
bounds, see the header comment). -/
def getN (ns : List MixerNode) (j : Nat) : MixerNode :=
  ns.getD j default

/-- Write modelling `self.nodes[j].prev = p`. -/
def setPrev (ns : List MixerNode) (j p : Nat) : List MixerNode :=
  ns.set j { getN ns j with prev := p }

/-- Write modelling `self.nodes[j].next = n`. -/
def setNext (ns : List MixerNode) (j n : Nat) : List MixerNode :=
  ns.set j { getN ns j with next := n }

/-- The zero-tracking loop of Mixer::new: scanning the enumerated values,
`if v == 0 { assert!(zero == 0); zero = i; }`.  Returns `none` when the
assertion fails (a Rust panic), i.e. when a zero value is met while the
recorded zero index is already nonzero. -/
def findZero : List (Nat × Int) → Nat → Option Nat
  | [], z => some z
  | (idx, v) :: rest, z =>
    if v = 0 then
      if z = 0 then findZero rest idx else none
    else
      findZero rest z

/-- Mixer::new from the source.  The node store is the enumerated input
mapped through MixerNode.new; the anchor index comes from the zero-tracking
loop.  `none` models the assertion panic inside the construction closure. -/
def Mixer.new (values : List Int) : Option Mixer :=
  let len := values.length
  (findZero values.enum 0).map fun z =>
    { nodes := values.enum.map fun p => MixerNode.new p.1 p.2 len
      zero := z }

/-- Mixer::mix_step_left from the source: unlink `source`, walk
`delta % (len - 1)` hops along `prev` starting at `source` (over the spliced
store), then relink `source` immediately before the node reached.  `none`
models the Rust panic of `delta % (self.nodes.len() - 1)` when the divisor
is zero (`len = 1`; `len = 0` would already have paniced on indexing). -/
def Mixer.mix_step_left (m : Mixer) (source delta : Nat) : Option Mixer :=
  if m.nodes.length ≤ 1 then none
  else
    let source_node := getN m.nodes source
    let ns1 := setNext m.nodes source_node.prev source_node.next
    let ns2 := setPrev ns1 source_node.next source_node.prev
    let target := (fun t => (getN ns2 t).prev)^[delta % (m.nodes.length - 1)] source
    let target_node := getN ns2 target
    let ns3 := setPrev ns2 source target_node.prev
    let ns4 := setNext ns3 source target
    let ns5 := setNext ns4 target_node.prev source
    let ns6 := setPrev ns5 target source
    some { m with nodes := ns6 }

/-- Mixer::mix_step_right from the source: unlink `source`, walk
`delta % (len - 1)` hops along `next` starting at `source` (over the spliced
store), then relink `source` immediately after the node reached.  `none`
models the same remainder-by-zero panic as in mix_step_left. -/
def Mixer.mix_step_right (m : Mixer) (source delta : Nat) : Option Mixer :=
  if m.nodes.length ≤ 1 then none
  else
    let source_node := getN m.nodes source
    let ns1 := setNext m.nodes source_node.prev source_node.next
    let ns2 := setPrev ns1 source_node.next source_node.prev
    let target := (fun t => (getN ns2 t).next)^[delta % (m.nodes.length - 1)] source
    let target_node := getN ns2 target
    let ns3 := setNext ns2 source target_node.next
    let ns4 := setPrev ns3 source target
    let ns5 := setPrev ns4 target_node.next source
    let ns6 := setNext ns5 target source
    some { m with nodes := ns6 }

/-- One iteration of the Mixer::mix loop body for index `mix_i`: dispatch on
the sign of the value stored at `mix_i`. -/
def mixStepAt (m : Mixer) (mix_i : Nat) : Option Mixer :=
  let delta := (getN m.nodes mix_i).value
  if delta < 0 then m.mix_step_left mix_i (-delta).toNat
  else if delta > 0 then m.mix_step_right mix_i delta.toNat
  else some m

/-- The Mixer::mix loop over a list of indices, threading the mixer state
and propagating a panic. -/
def mixLoop (m : Mixer) : List Nat → Option Mixer
  | [] => some m
  | idx :: rest => (mixStepAt m idx).bind fun m1 => mixLoop m1 rest

/-- Mixer::mix from the source: `for mix_i in 0..self.nodes.len()`, moving
each element (in original input order) by its own value. -/
def Mixer.mix (m : Mixer) : Option Mixer :=
  mixLoop m (List.range m.nodes.length)

/-- Runs `k` full mix rounds (problem 1 uses one, problem 2 ten). -/
def mixN (m : Mixer) : Nat → Option Mixer
  | 0 => some m
  | k + 1 => m.mix.bind fun m1 => mixN m1 k

/-- Mixer::get_at_index from the source: walk `idx % len` hops along `next`
from the anchor and read the value there.  `none` models the Rust panic of
`idx % self.nodes.len()` on an empty store. -/
def Mixer.get_at_index (m : Mixer) (idx : Nat) : Option Int :=
  if m.nodes.length = 0 then none
  else
    let result := (fun r => (getN m.nodes r).next)^[idx % m.nodes.length] m.zero
    some (getN m.nodes result).value

/-- problem_1 from the source, taking the already-parsed numbers (the line
parsing itself is outside the mixer core): build, one mix round, then sum
the values at offsets 1000, 2000 and 3000 from the anchor. -/
def problem_1 (values : List Int) : Option Int :=
  (Mixer.new values).bind fun m =>
    m.mix.bind fun m1 =>
      (m1.get_at_index 1000).bind fun a =>
        (m1.get_at_index 2000).bind fun b =>
          (m1.get_at_index 3000).map fun c => a + b + c

/-- problem_2 from the source: every parsed value is first multiplied by
811589153, ten mix rounds are run, and the same three offsets are summed. -/
def problem_2 (values : List Int) : Option Int :=
  (Mixer.new (values.map fun v => v * 811589153)).bind fun m =>
    (mixN m 10).bind fun m1 =>
      (m1.get_at_index 1000).bind fun a =>
        (m1.get_at_index 2000).bind fun b =>
          (m1.get_at_index 3000).map fun c => a + b + c

end Day20

namespace Day20

/-- Construction profile of a node store: the original index and payload
value of every slot, in slot order.  Mixing is meant to touch only the ring
links, so this projection should be invariant under every mix operation. -/
def profile (ns : List MixerNode) : List (Nat × Int) :=
  ns.map fun nd => (nd.i, nd.value)

/-- Concrete two-element mixer (values 1 and 2) used to instantiate the
conditional theorems on a fully evaluated input. -/
def mixerA : Mixer :=
  ⟨[⟨0, 1, 1, 1⟩, ⟨1, 0, 0, 2⟩], 0⟩

/-- The state of mixerA after one mix round, computed from the model. -/
def mixerA1 : Mixer :=
  ⟨[⟨0, 0, 1, 1⟩, ⟨1, 1, 1, 2⟩], 0⟩

/-- Concrete two-element mixer (values 0 and 5, anchor 0) used to
instantiate the conditional theorems on a fully evaluated input. -/
def mixerB : Mixer :=
  ⟨[⟨0, 1, 1, 0⟩, ⟨1, 0, 0, 5⟩], 0⟩

theorem profile_set_eq (ns : List MixerNode) (j : Nat) (nd : MixerNode)
    (hi : nd.i = (getN ns j).i) (hv : nd.value = (getN ns j).value) :
    profile (ns.set j nd) = profile ns := by
  induction ns generalizing j with
  | nil => rfl
  | cons a t ih =>
    cases j with
    | zero =>
      simp only [getN, List.getD_cons_zero] at hi hv
      simp [profile, List.set, hi, hv]
    | succ j =>
      simp only [getN, List.getD_cons_succ] at hi hv
      simpa [profile, List.set] using ih j hi hv

theorem profile_setPrev (ns : List MixerNode) (j p : Nat) :
    profile (setPrev ns j p) = profile ns :=
  profile_set_eq ns j _ rfl rfl

theorem profile_setNext (ns : List MixerNode) (j n : Nat) :
    profile (setNext ns j n) = profile ns :=
  profile_set_eq ns j _ rfl rfl

theorem profile_mix_step_left (m m' : Mixer) (s d : Nat)
    (h : m.mix_step_left s d = some m') : profile m'.nodes = profile m.nodes := by
  unfold Mixer.mix_step_left at h
  split at h
  · exact absurd h (by simp)
  · cases h
    simp only [profile_setPrev, profile_setNext]

theorem profile_mix_step_right (m m' : Mixer) (s d : Nat)
    (h : m.mix_step_right s d = some m') : profile m'.nodes = profile m.nodes := by
  unfold Mixer.mix_step_right at h
  split at h
  · exact absurd h (by simp)
  · cases h
    simp only [profile_setPrev, profile_setNext]

theorem profile_mixStepAt (m m' : Mixer) (j : Nat)
    (h : mixStepAt m j = some m') : profile m'.nodes = profile m.nodes := by
  simp only [mixStepAt] at h
  split at h
  · exact profile_mix_step_left m m' j _ h
  · split at h
    · exact profile_mix_step_right m m' j _ h
    · cases h
      rfl

theorem profile_mixLoop (l : List Nat) (m m' : Mixer)
    (h : mixLoop m l = some m') : profile m'.nodes = profile m.nodes := by
  induction l generalizing m with
  | nil =>
    cases h
    rfl
  | cons j rest ih =>
    unfold mixLoop at h
    rcases hstep : mixStepAt m j with _ | m1
    · rw [hstep] at h
      cases h
    · rw [hstep] at h
      exact (ih m1 h).trans (profile_mixStepAt m m1 j hstep)

theorem profile_mix (m m' : Mixer) (h : m.mix = some m') :
    profile m'.nodes = profile m.nodes :=
  profile_mixLoop _ m m' h

theorem profile_mixN (k : Nat) (m m' : Mixer) (h : mixN m k = some m') :
    profile m'.nodes = profile m.nodes := by
  induction k generalizing m with
  | zero =>
    cases h
    rfl
  | succ k ih =>
    unfold mixN at h
    rcases hmix : m.mix with _ | m1
    · rw [hmix] at h
      cases h
    · rw [hmix] at h
      exact (ih m1 h).trans (profile_mix m m1 hmix)

end Day20

namespace Day20

theorem findZero_no_zero (l : List (Nat × Int)) (z : Nat)
    (h : ∀ p ∈ l, p.2 ≠ 0) : findZero l z = some z := by
  induction l generalizing z with
  | nil => rfl
  | cons p rest ih =>
    obtain ⟨idx, v⟩ := p
    have hv : v ≠ 0 := h (idx, v) (by simp)
    simp only [findZero, if_neg hv]
    exact ih z fun q hq => h q (by simp [hq])

/-- Claim C1: for the input [1, 2, -3, 3, -2, 0, 4], after one mix round the
queries at offsets 1000, 2000 and 3000 from the zero anchor return 4, -3
and 2, and problem_1 returns their sum 3. -/
theorem C1_problem1_example :
    ((Mixer.new [1, 2, -3, 3, -2, 0, 4]).bind Mixer.mix).map
        (fun m => (m.get_at_index 1000, m.get_at_index 2000, m.get_at_index 3000)) =
      some (some 4, some (-3), some 2) ∧
    problem_1 [1, 2, -3, 3, -2, 0, 4] = some 3 := by
  decide

/-- Claim C4: for the same input with every value first multiplied by
811589153, after ten mix rounds the three offset queries sum to
1623178306, the value problem_2 returns. -/
theorem C4_problem2_example :
    problem_2 [1, 2, -3, 3, -2, 0, 4] = some 1623178306 := by
  decide

/-- Claim C2 (code bug): relocating by a reduced step count of 0 is NOT a
no-op.  For values [0, 5] the ring starts with links (prev, next) equal to
[(1, 1), (0, 0)]; one mix round moves element 1 by 5 % 1 = 0 steps and
leaves the links as [(1, 0), (1, 1)]: element 1 now links to itself and no
other element links to it, so the ring was changed and fragmented. -/
theorem C2_steps_zero_not_noop :
    (Mixer.new [0, 5]).map (fun m => m.nodes.map fun nd => (nd.prev, nd.next)) =
      some [(1, 1), (0, 0)] ∧
    ((Mixer.new [0, 5]).bind Mixer.mix).map
        (fun m => m.nodes.map fun nd => (nd.prev, nd.next)) =
      some [(1, 0), (1, 1)] := by
  decide

/-- Claim C3 (code bug): cycle integrity fails after mixing [0, 5].  From
element 0 of the mixed ring, one hop along next reaches element 0 again and
so does the second hop: the walk of length N = 2 visits only element 0,
never element 1, so the structure is no longer a single 2-cycle. -/
theorem C3_cycle_broken :
    ((Mixer.new [0, 5]).bind Mixer.mix).map
        (fun m => ((getN m.nodes 0).next, (getN m.nodes (getN m.nodes 0).next).next)) =
      some (0, 0) := by
  decide

/-- Claim C5: any number of mix rounds preserves every slot of the
construction profile: each element keeps its original index and value, the
list (hence multiset) of values is unchanged, and no element is added or
removed. -/
theorem C5_mix_preserves_values (m m' : Mixer) (k : Nat) (h : mixN m k = some m') :
    profile m'.nodes = profile m.nodes ∧
    m'.nodes.map MixerNode.value = m.nodes.map MixerNode.value ∧
    Multiset.ofList (m'.nodes.map MixerNode.value) =
      Multiset.ofList (m.nodes.map MixerNode.value) ∧
    m'.nodes.length = m.nodes.length := by
  have hp := profile_mixN k m m' h
  have hv : m'.nodes.map MixerNode.value = m.nodes.map MixerNode.value := by
    have h2 := congrArg (List.map Prod.snd) hp
    simpa [profile, List.map_map, Function.comp] using h2
  refine ⟨hp, hv, by rw [hv], ?_⟩
  have h3 := congrArg List.length hp
  simpa [profile] using h3

/-- Witness for C5 at the concrete mixer with values [1, 2] and one round. -/
theorem C5_mix_preserves_values_witness :
    mixN mixerA 1 = some mixerA1 ∧
    (profile mixerA1.nodes = profile mixerA.nodes ∧
     mixerA1.nodes.map MixerNode.value = mixerA.nodes.map MixerNode.value ∧
     Multiset.ofList (mixerA1.nodes.map MixerNode.value) =
       Multiset.ofList (mixerA.nodes.map MixerNode.value) ∧
     mixerA1.nodes.length = mixerA.nodes.length) :=
  ⟨by decide, C5_mix_preserves_values mixerA mixerA1 1 (by decide)⟩

/-- Claim C6 counterexample: in the example input the zero-valued element
(slot 5) starts with links (prev, next) = (4, 6); after one mix round its
links are (6, 3).  Other elements relinking next to it rewrote its fields,
so they are not unchanged across a mix round. -/
theorem C6_zero_links_change :
    (Mixer.new [1, 2, -3, 3, -2, 0, 4]).map
        (fun m => ((getN m.nodes 5).value, (getN m.nodes 5).prev, (getN m.nodes 5).next)) =
      some (0, 4, 6) ∧
    ((Mixer.new [1, 2, -3, 3, -2, 0, 4]).bind Mixer.mix).map
        (fun m => ((getN m.nodes 5).value, (getN m.nodes 5).prev, (getN m.nodes 5).next)) =
      some (0, 6, 3) := by
  decide

/-- Claim C6 (amended): a zero-valued element is never itself relocated:
its own turn in the mix loop leaves the whole mixer unchanged (no unlink
and no relink).  Its prev and next fields may still be rewritten by the
relocation of other elements. -/
theorem C6_zero_value_step_noop (m : Mixer) (j : Nat)
    (h : (getN m.nodes j).value = 0) : mixStepAt m j = some m := by
  simp [mixStepAt, h]

/-- Witness for the amended C6 at the concrete mixer mixerB, slot 0. -/
theorem C6_zero_value_step_noop_witness :
    (getN mixerB.nodes 0).value = 0 ∧ mixStepAt mixerB 0 = some mixerB :=
  ⟨by decide, C6_zero_value_step_noop mixerB 0 (by decide)⟩

end Day20

namespace Day20

/-- Claim C7 counterexample: for the zero-free input [1, 2] the anchor
silently defaults to index 0 and the first query returns the value 1
instead of failing. -/
theorem C7_no_zero_query_returns_value :
    ((Mixer.new [1, 2]).bind fun m => m.get_at_index 0) = some 1 ∧
    (Mixer.new [1, 2]).map Mixer.zero = some 0 := by
  decide

/-- Claim C7 (amended): when no element has value 0, neither construction
nor querying fails: the anchor defaults to index 0 and value_at_offset
returns a value (whenever the input is nonempty). -/
theorem C7_no_zero_defaults_anchor (values : List Int) (h : ∀ v ∈ values, v ≠ 0) :
    ∃ m, Mixer.new values = some m ∧ m.zero = 0 ∧
      (values ≠ [] → (m.get_at_index 0).isSome = true) := by
  have h2 : ∀ p ∈ values.enum, p.2 ≠ 0 := by
    intro p hp
    apply h
    have hmem : p.2 ∈ values.enum.map Prod.snd := List.mem_map_of_mem _ hp
    simpa [List.enum_map_snd] using hmem
  have hz := findZero_no_zero values.enum 0 h2
  refine ⟨⟨values.enum.map fun p => MixerNode.new p.1 p.2 values.length, 0⟩, ?_, rfl, ?_⟩
  · simp [Mixer.new, hz]
  intro hne
  have hlen : (values.enum.map fun p => MixerNode.new p.1 p.2 values.length).length =
      values.length := by
    simp
  simp only [Mixer.get_at_index, hlen]
  rw [if_neg (by simpa [List.length_eq_zero] using hne)]
  simp

/-- Witness for the amended C7 at the zero-free input [1, 2]. -/
theorem C7_no_zero_defaults_anchor_witness :
    (∀ v ∈ [(1 : Int), 2], v ≠ 0) ∧
    (∃ m, Mixer.new [(1 : Int), 2] = some m ∧ m.zero = 0 ∧
      ([(1 : Int), 2] ≠ [] → (m.get_at_index 0).isSome = true)) :=
  ⟨by decide, C7_no_zero_defaults_anchor [1, 2] (by decide)⟩

/-- Claim C8 counterexample: build performs no minimum-length check:
construction succeeds for the empty input and for the single-element
input [5]. -/
theorem C8_small_build_succeeds :
    (Mixer.new ([] : List Int)).isSome = true ∧ (Mixer.new [5]).isSome = true := by
  decide

/-- Claim C8 (amended): build never checks the input length: the empty
input yields the empty mixer and every single-element input yields a
mixer; no failure of any kind is produced at construction time. -/
theorem C8_no_length_check (v : Int) :
    Mixer.new ([] : List Int) = some ⟨[], 0⟩ ∧ (Mixer.new [v]).isSome = true := by
  refine ⟨rfl, ?_⟩
  by_cases hv : v = 0 <;>
    simp [Mixer.new, findZero, List.enum, List.enumFrom, hv]

/-- Claim C9 counterexample: construction does fail for some zero counts:
with input [1, 0, 0] the second zero trips the assertion (the recorded
zero index is already 1) and build panics. -/
theorem C9_duplicate_zero_panics : Mixer.new [1, 0, 0] = none := by
  decide

/-- Claim C9 (amended): build partially enforces the zero precondition
through the assertion: it panics when a zero value is met while a previous
zero sat at a nonzero index (input [1, 0, 0]), yet a duplicate zero slips
through when the first zero sits at index 0 (input [0, 0] succeeds, with
anchor 1). -/
theorem C9_zero_assert_partial :
    Mixer.new [1, 0, 0] = none ∧ (Mixer.new [0, 0]).map Mixer.zero = some 1 := by
  decide

/-- Claim C10: building from a single nonzero value succeeds, and the
first mix round then panics with the remainder-by-zero in
delta % (len - 1) (modelled by none); no error value is ever produced. -/
theorem C10_singleton_nonzero_mix_panics (v : Int) (h : v ≠ 0) :
    ∃ m, Mixer.new [v] = some m ∧ m.mix = none := by
  refine ⟨⟨[MixerNode.new 0 v 1], 0⟩, ?_, ?_⟩
  · simp [Mixer.new, findZero, List.enum, List.enumFrom, h]
  · rcases lt_or_gt_of_ne h with hv | hv
    · simp [Mixer.mix, mixLoop, mixStepAt, Mixer.mix_step_left, getN, MixerNode.new,
        List.range_succ, hv]
    · simp [Mixer.mix, mixLoop, mixStepAt, Mixer.mix_step_right, getN, MixerNode.new,
        List.range_succ, hv, not_lt.mpr (le_of_lt hv)]

/-- Witness for C10 at the single-element input [5]. -/
theorem C10_singleton_nonzero_mix_panics_witness :
    ((5 : Int) ≠ 0) ∧ (∃ m, Mixer.new [(5 : Int)] = some m ∧ m.mix = none) :=
  ⟨by decide, C10_singleton_nonzero_mix_panics 5 (by decide)⟩

end Day20
